import Mathlib

/-!
Verification of the package-download statistics resolver

Shallow embedding of the multi-source download-statistics acquisition and
normalization logic of `fastapi-backend/src/reports/overview.py`
(`_fetch_npm_downloads`, `_fetch_pypi_downloads`, `_normalize_entries`,
`_synth_series`, and the card-level fallback in
`PackageDownloadsAreaCard.handler`).

Modelling conventions:
* JSON payloads are modelled by the inductive `JVal` (null, bool, int,
  string, list, dict).  Floating-point JSON numbers are not modelled; no
  claim depends on them.
* Python truthiness, `dict.get`, the `or` operator, `str()` and `int()`
  coercion are modelled explicitly (`JVal.truthy`, `pyGet`, `pyOr`,
  `JVal.pyStr`, `pyInt`).  `str()` of a list/dict is abstracted to a fixed
  non-ISO placeholder string (its exact repr never parses as a date, which
  is the only way it is consumed).
* `datetime.fromisoformat(...).date()` is modelled by `fromisoformatDate`:
  a strict `YYYY-MM-DD` calendar-date prefix optionally followed by a
  `T`/space separator and a time-of-day with optional fractional seconds
  and UTC offset (the grammar subset exercised by this code).
* HTTP requests are modelled by environments mapping URLs to a
  `FetchResult`: either a raised transport error, or a response with a
  status code and an optionally-parseable JSON body.
* Exceptions are modelled by `Except`/`Option` results; a caught exception
  corresponds to the handler's fallback value.
-/

/-! ## Calendar dates (`datetime.date`) -/

/-- A calendar date as produced by `datetime.date`. -/
structure PyDate where
  year : Nat
  month : Nat
  day : Nat
deriving DecidableEq, Repr

/-- Lexicographic comparison key; for valid dates (`month ≤ 12`, `day ≤ 31`)
this Nat order coincides with `datetime.date` ordering. -/
def PyDate.key (d : PyDate) : Nat :=
  d.year * 10000 + d.month * 100 + d.day

/-- Left-pad the decimal representation of `n` with zeros to `width`. -/
def padNat (n width : Nat) : String :=
  let s := toString n
  String.mk (List.replicate (width - s.length) '0') ++ s

/-- Model of `date.isoformat()`: zero-padded `YYYY-MM-DD`. -/
def PyDate.isoformat (d : PyDate) : String :=
  padNat d.year 4 ++ "-" ++ padNat d.month 2 ++ "-" ++ padNat d.day 2

/-- Gregorian leap-year test, as in `datetime`. -/
def isLeapYear (y : Nat) : Bool :=
  y % 4 = 0 && (y % 100 ≠ 0 || y % 400 = 0)

/-- Number of days in month `m` of year `y`. -/
def daysInMonth (y m : Nat) : Nat :=
  if m = 2 then (if isLeapYear y then 29 else 28)
  else if m = 4 ∨ m = 6 ∨ m = 9 ∨ m = 11 then 30
  else 31

/-- Numeric value of a decimal digit list (most significant first). -/
def natOfDigits (cs : List Char) : Nat :=
  cs.foldl (fun a c => a * 10 + (c.toNat - 48)) 0

/-- Parse a strict `YYYY-MM-DD` calendar date (the first ten characters
accepted by `datetime.fromisoformat`), validating the calendar. -/
def parseDate10 (cs : List Char) : Option PyDate :=
  match cs with
  | [y1, y2, y3, y4, s1, m1, m2, s2, d1, d2] =>
    if s1 = '-' ∧ s2 = '-' ∧ ([y1, y2, y3, y4, m1, m2, d1, d2].all Char.isDigit) then
      let y := natOfDigits [y1, y2, y3, y4]
      let m := natOfDigits [m1, m2]
      let d := natOfDigits [d1, d2]
      if 1 ≤ y ∧ 1 ≤ m ∧ m ≤ 12 ∧ 1 ≤ d ∧ d ≤ daysInMonth y m then
        some ⟨y, m, d⟩
      else none
    else none
  | _ => none

/-- Two decimal digits below `bound`. -/
def twoDigitsLt (a b : Char) (bound : Nat) : Bool :=
  a.isDigit && b.isDigit && natOfDigits [a, b] < bound

/-- Fractional-second suffix: `.` or `,` followed by at least one digit. -/
def validFraction (cs : List Char) : Bool :=
  match cs with
  | sep :: rest => (sep = '.' || sep = ',') && !rest.isEmpty && rest.all Char.isDigit
  | [] => false

/-- Time-of-day core `HH[:MM[:SS[.ffffff]]]` as accepted by
`datetime.fromisoformat`. -/
def validTimeCore (cs : List Char) : Bool :=
  match cs with
  | [h1, h2] => twoDigitsLt h1 h2 24
  | [h1, h2, ':', m1, m2] => twoDigitsLt h1 h2 24 && twoDigitsLt m1 m2 60
  | h1 :: h2 :: ':' :: m1 :: m2 :: ':' :: s1 :: s2 :: rest =>
    twoDigitsLt h1 h2 24 && twoDigitsLt m1 m2 60 && twoDigitsLt s1 s2 60 &&
      (rest.isEmpty || validFraction rest)
  | _ => false

/-- UTC-offset suffix body after the sign: `HH`, `HHMM` or `HH:MM`. -/
def validOffsetBody (cs : List Char) : Bool :=
  match cs with
  | [h1, h2] => twoDigitsLt h1 h2 24
  | [h1, h2, m1, m2] => twoDigitsLt h1 h2 24 && twoDigitsLt m1 m2 60
  | [h1, h2, ':', m1, m2] => twoDigitsLt h1 h2 24 && twoDigitsLt m1 m2 60
  | _ => false

/-- Split `cs` at the first occurrence of an offset-introducing character
(`Z`, `z`, `+`, `-`), which cannot occur in the time core. -/
def splitAtOffset (cs : List Char) : List Char × List Char :=
  match cs with
  | [] => ([], [])
  | c :: rest =>
    if c = 'Z' ∨ c = 'z' ∨ c = '+' ∨ c = '-' then ([], c :: rest)
    else
      let (a, b) := splitAtOffset rest
      (c :: a, b)

/-- Validate the full time-of-day part, including an optional `Z` or
`±HH[:MM]` offset. -/
def validTimePart (cs : List Char) : Bool :=
  let (core, off) := splitAtOffset cs
  validTimeCore core &&
    (match off with
     | [] => true
     | ['Z'] => true
     | ['z'] => true
     | s :: rest => (s = '+' || s = '-') && validOffsetBody rest)

/-- Model of `datetime.fromisoformat(s).date()`: parse the leading
`YYYY-MM-DD`, and when a time component follows require a `T` or space
separator and a valid time-of-day. -/
def fromisoformatDate (s : String) : Option PyDate :=
  let cs := s.data
  if cs.length ≤ 10 then parseDate10 cs
  else
    match parseDate10 (cs.take 10) with
    | none => none
    | some d =>
      match cs.drop 10 with
      | sep :: rest =>
        if (sep = 'T' ∨ sep = ' ') ∧ validTimePart rest then some d else none
      | [] => none

/-! ## Day arithmetic for `timedelta` subtraction

Port of the standard proleptic-Gregorian civil-from-days / days-from-civil
conversions (Hinnant's algorithm), using truncating `Int` division exactly
as the original. -/

/-- Serial day number of a civil date (0 = 1970-01-01). -/
def daysFromCivil (year : Int) (month day : Nat) : Int :=
  let y : Int := if month ≤ 2 then year - 1 else year
  let era : Int := (if 0 ≤ y then y else y - 399) / 400
  let yoe : Int := y - era * 400
  let mp : Int := ((month : Int) + 9) % 12
  let doy : Int := (153 * mp + 2) / 5 + (day : Int) - 1
  let doe : Int := yoe * 365 + yoe / 4 - yoe / 100 + doy
  era * 146097 + doe - 719468

/-- Civil date of a serial day number (0 = 1970-01-01). -/
def civilFromDays (z0 : Int) : Int × Nat × Nat :=
  let z : Int := z0 + 719468
  let era : Int := (if 0 ≤ z then z else z - 146096) / 146097
  let doe : Int := z - era * 146097
  let yoe : Int := (doe - doe / 1460 + doe / 36524 - doe / 146096) / 365
  let y : Int := yoe + era * 400
  let doy : Int := doe - (365 * yoe + yoe / 4 - yoe / 100)
  let mp : Int := (5 * doy + 2) / 153
  let d : Int := doy - (153 * mp + 2) / 5 + 1
  let m : Int := if mp < 10 then mp + 3 else mp - 9
  (if m ≤ 2 then y + 1 else y, m.toNat, d.toNat)

/-- Model of `date - timedelta(days=n)`. -/
def dateSubDays (dt : PyDate) (n : Nat) : PyDate :=
  match civilFromDays (daysFromCivil dt.year dt.month dt.day - n) with
  | (y, m, d) => ⟨y.toNat, m, d⟩

/-! ## JSON values and Python coercions -/

/-- JSON values as manipulated by the Python code.  Dicts are ordered
association lists (Python dict preserves insertion order); duplicate keys
do not arise from parsed JSON and lookups take the first occurrence. -/
inductive JVal where
  | jnull
  | jbool (b : Bool)
  | jint (n : Int)
  | jstr (s : String)
  | jlist (items : List JVal)
  | jdict (fields : List (String × JVal))

/-- Python truthiness of a value. -/
def JVal.truthy : JVal → Bool
  | .jnull => false
  | .jbool b => b
  | .jint n => n ≠ 0
  | .jstr s => s ≠ ""
  | .jlist l => !l.isEmpty
  | .jdict f => !f.isEmpty

/-- Test for `value is None`. -/
def JVal.isNull : JVal → Bool
  | .jnull => true
  | _ => false

/-- Model of `d.get(k, default)`. -/
def pyGetD (fields : List (String × JVal)) (k : String) (dflt : JVal) : JVal :=
  match fields.find? (fun kv => kv.1 = k) with
  | some kv => kv.2
  | none => dflt

/-- Model of `d.get(k)` (default `None`). -/
def pyGet (fields : List (String × JVal)) (k : String) : JVal :=
  pyGetD fields k .jnull

/-- Python `a or b`: `a` if truthy, else `b`. -/
def pyOr (a b : JVal) : JVal :=
  if a.truthy then a else b

/-- Python `str()` of a value.  The repr of lists and dicts is abstracted
to a fixed placeholder; it is only ever fed to the date parser, which
rejects any such string just as it rejects the real repr. -/
def JVal.pyStr : JVal → String
  | .jstr s => s
  | .jint n => toString n
  | .jbool b => if b then "True" else "False"
  | .jnull => "None"
  | .jlist _ => "<list repr>"
  | .jdict _ => "<dict repr>"

/-- Python `int(string)`: optional surrounding whitespace, optional sign,
then at least one decimal digit (digit-group underscores not modelled). -/
def parsePyIntString (s : String) : Option Int :=
  let cs := (s.data.dropWhile Char.isWhitespace).reverse.dropWhile Char.isWhitespace |>.reverse
  let core : List Char → Option Nat := fun ds =>
    if ds.isEmpty || !ds.all Char.isDigit then none else some (natOfDigits ds)
  match cs with
  | '+' :: rest => (core rest).map Int.ofNat
  | '-' :: rest => (core rest).map (fun n => -(n : Int))
  | rest => (core rest).map Int.ofNat

/-- Python `int(value)` for the value shapes that can appear here;
`none` models a raised `TypeError`/`ValueError`. -/
def pyInt : JVal → Option Int
  | .jint n => some n
  | .jbool b => some (if b then 1 else 0)
  | .jstr s => parsePyIntString s
  | _ => none

/-! ## `_normalize_entries` -/

/-- A normalized per-day point `{"date": iso, "downloads": n}` as produced
by `_normalize_entries`. -/
structure NormEntry where
  date : String
  downloads : Int
deriving DecidableEq, Repr

/-- Lexicographic code-point comparison of character lists: exactly the
`≤` that Python uses to compare the date strings during sorting. -/
def charListLe : List Char → List Char → Bool
  | [], _ => true
  | _ :: _, [] => false
  | a :: as, b :: bs => if a = b then charListLe as bs else decide (a < b)

/-- Python string `≤` (code-point lexicographic). -/
def strLe (a b : String) : Bool :=
  charListLe a.data b.data

/-- Date order used for the `sort(key=lambda x: x["date"])` step. -/
def normLe (a b : NormEntry) : Prop :=
  strLe a.date b.date

instance : DecidableRel normLe :=
  fun a b => inferInstanceAs (Decidable (strLe a.date b.date = true))

/-- The body applied to each entry of `_normalize_entries`'s loop: alias
probing with `or`, the `date and downloads is not None` guard, and the
`fromisoformat`/`int` coercions whose failure discards the entry. -/
def normalizeOne (item : JVal) : Option NormEntry :=
  match item with
  | .jdict fields =>
    let date := pyOr (pyGet fields "date") (pyOr (pyGet fields "day") (pyGet fields "key"))
    let downloads :=
      pyOr (pyGet fields "downloads")
        (pyOr (pyGet fields "count")
          (pyOr (pyGet fields "value") (pyGet fields "downloads_count")))
    if date.truthy && !downloads.isNull then
      match fromisoformatDate date.pyStr, pyInt downloads with
      | some d, some n => some ⟨d.isoformat, n⟩
      | _, _ => none
    else none
  | _ => none

/-- Model of `_normalize_entries`: shape-tolerant extraction of `{date, downloads}`
records followed by a stable ascending sort on the date string (Python's
`list.sort` is stable; any stable sort under the same total preorder
produces the same list, so insertion sort models it exactly). -/
def _normalize_entries (entries : List JVal) : List NormEntry :=
  (entries.filterMap normalizeOne).insertionSort normLe

/-! ## HTTP fetch model -/

/-- Outcome of one `client.get(url)` call: either the request raised
(network error / timeout), or a response arrived carrying a status code
and a body; `json = none` models `r.json()` raising on a malformed body. -/
inductive FetchResult where
  | err
  | resp (status : Int) (json : Option JVal)

/-- httpx `raise_for_status()` succeeds exactly on 2xx responses. -/
def is2xx (status : Int) : Bool :=
  200 ≤ status && status < 300

/-! ## PyPI metadata scan (earliest upload date) -/

/-- Model of `s.replace(old, new)` for a single-character pattern: replace every
occurrence of `old` by `new`, scanning left to right (the only pattern
this code uses is `"Z"`). -/
def replaceChar (old : Char) (new : List Char) : List Char → List Char
  | [] => []
  | c :: rest =>
    if c = old then new ++ replaceChar old new rest
    else c :: replaceChar old new rest

/-- Model of `s.replace("Z", "+00:00")`. -/
def pyReplaceZ (s : String) : String :=
  String.mk (replaceChar 'Z' "+00:00".data s.data)

/-- Parse one file record's upload timestamp
(`t.replace("Z", "+00:00")` then `fromisoformat(...).date()`); a non-string
value makes `.replace` raise, which the inner `except` turns into a skip. -/
def parseUploadTime (t : JVal) : Option PyDate :=
  match t with
  | .jstr s => fromisoformatDate (pyReplaceZ s)
  | _ => none

/-- One update of the running `earliest` minimum, with the source's
strict `dt < earliest` comparison (first of ties wins). -/
def minStep (earliest : Option PyDate) (dt : PyDate) : Option PyDate :=
  match earliest with
  | none => some dt
  | some e => if dt.key < e.key then some dt else some e

/-- The inner loop over one release's file records.  `Except.error ()`
models an exception escaping to the outer metadata `try` (e.g. `f.get` on
a non-dict item); the accumulator is the running `earliest` minimum. -/
def scanFiles : List JVal → Option PyDate → Except Unit (Option PyDate)
  | [], earliest => .ok earliest
  | f :: rest, earliest =>
    match f with
    | .jdict fields =>
      let t := pyOr (pyGet fields "upload_time_iso_8601") (pyGet fields "upload_time")
      if !t.truthy then scanFiles rest earliest
      else
        match parseUploadTime t with
        | none => scanFiles rest earliest
        | some dt => scanFiles rest (minStep earliest dt)
    | _ => .error ()

/-- The outer loop over `releases.values()`.  `version_files or []` turns a
falsy value into the empty list; iterating any other non-list raises. -/
def scanReleases : List JVal → Option PyDate → Except Unit (Option PyDate)
  | [], earliest => .ok earliest
  | vf :: rest, earliest =>
    match pyOr vf (.jlist []) with
    | .jlist files =>
      match scanFiles files earliest with
      | .error e => .error e
      | .ok earliest2 => scanReleases rest earliest2
    | _ => .error ()

/-- Step 1 of `_fetch_pypi_downloads`: derive `start_date` from the PyPI
JSON metadata.  Any failure (transport error, non-2xx via
`raise_for_status`, malformed JSON, shape errors while scanning) is caught
by the surrounding `except` and leaves `start_date = None`; a discovered
minimum is used only when it is not in the future. -/
def pypiStartDate (metaFetch : FetchResult) (today : PyDate) : Option String :=
  match metaFetch with
  | .err => none
  | .resp status json =>
    if !is2xx status then none
    else
      match json with
      | none => none
      | some meta =>
        match meta with
        | .jdict mfields =>
          match pyOr (pyGetD mfields "releases" (.jdict [])) (.jdict []) with
          | .jdict rels =>
            match scanReleases (rels.map (fun kv => kv.2)) none with
            | .error _ => none
            | .ok none => none
            | .ok (some earliest) =>
              if earliest.key ≤ today.key then some earliest.isoformat else none
          | _ => none
        | _ => none

/-! ## pypistats candidate chain -/

/-- The ordered pypistats candidate URLs: the two range variants (only when
a start date was derived), then `overall?mirrors=false`, then `recent`. -/
def pypistatsCandidates (pkg : String) (startDate : Option String) (today : PyDate) :
    List String :=
  (match startDate with
   | some s =>
     ["https://pypistats.org/api/packages/" ++ pkg ++ "/range/" ++ s ++ ":" ++ today.isoformat,
      "https://pypistats.org/api/packages/" ++ pkg ++ "/range/" ++ s ++ "/" ++ today.isoformat]
   | none => []) ++
  ["https://pypistats.org/api/packages/" ++ pkg ++ "/overall?mirrors=false",
   "https://pypistats.org/api/packages/" ++ pkg ++ "/recent"]

/-- Shape dispatch for a pypistats payload: `{"data": [...]}` or
`{"data": {"downloads": [...]}}` or a bare list; anything else
contributes no entries. -/
def extractStatsEntries (payload : JVal) : List JVal :=
  match payload with
  | .jdict fields =>
    match pyGet fields "data" with
    | .jlist l => l
    | .jdict dfields =>
      match dfields.find? (fun kv => kv.1 = "downloads") with
      | some (_, .jlist l) => l
      | _ => []
    | _ => []
  | .jlist l => l
  | _ => []

/-- Python's `normalized[-days:]` truncation under the `len > days` guard;
note `l[-0:]` is the whole list, so `days = 0` never truncates. -/
def pySliceLast {α : Type} (l : List α) (days : Nat) : List α :=
  if days = 0 then l else l.drop (l.length - days)

/-- Model of `if len(normalized) > days: normalized = normalized[-days:]`. -/
def capDays (l : List NormEntry) (days : Nat) : List NormEntry :=
  if l.length > days then pySliceLast l days else l

/-- One pypistats candidate attempt: a raised request, a non-200 status, a
malformed body, or an empty normalized series all make the loop continue
(`none`); a non-empty normalized series is the candidate's result. -/
def statsCandidateResult (fetch : String → FetchResult) (url : String) :
    Option (List NormEntry) :=
  match fetch url with
  | .err => none
  | .resp status json =>
    if status ≠ 200 then none
    else
      match json with
      | none => none
      | some payload =>
        let normalized := _normalize_entries (extractStatsEntries payload)
        if normalized.isEmpty then none else some normalized

/-- The `for url in pypistats_candidates` loop: first candidate with a
non-empty normalized series wins and is truncated to the most recent
`days` points; all failures fall through to the next candidate. -/
def tryStatsCandidates (fetch : String → FetchResult) (urls : List String) (days : Nat) :
    Option (List NormEntry) :=
  match urls with
  | [] => none
  | url :: rest =>
    match statsCandidateResult fetch url with
    | some normalized => some (capDays normalized days)
    | none => tryStatsCandidates fetch rest days

/-! ## pepy.tech candidate (API-key gated) -/

/-- Truthiness of an optional environment/config string: `None` and the
empty string are falsy. -/
def strFalsy : Option String → Bool
  | none => true
  | some s => s = ""

/-- Python `a or b` on optional strings. -/
def pyOrStr (a b : Option String) : Option String :=
  if strFalsy a then b else a

/-- pepy API-key resolution: the explicit config token (`CONFIG` reached
through a guarded `__main__` import; `none` models both an absent token and
a failed import), and when that is falsy the environment fallback chain
`PEPY_API_KEY` / `PEPY_KEY` / `PEPY_TOKEN`. -/
def pepyResolveKey (configKey : Option String) (getenv : String → Option String) :
    Option String :=
  if strFalsy configKey then
    pyOrStr (getenv "PEPY_API_KEY") (pyOrStr (getenv "PEPY_KEY") (getenv "PEPY_TOKEN"))
  else configKey

/-- The ordered pepy candidate URLs: the date-bounded downloads endpoint
(only when a start date was derived), then the two project-summary hosts. -/
def pepyCandidates (pkg : String) (startDate : Option String) (today : PyDate) :
    List String :=
  (match startDate with
   | some s =>
     ["https://pepy.tech/api/v2/projects/" ++ pkg ++ "/downloads?from=" ++ s ++
        "&to=" ++ today.isoformat]
   | none => []) ++
  ["https://pepy.tech/api/v2/projects/" ++ pkg,
   "https://api.pepy.tech/api/v2/projects/" ++ pkg]

/-- Model of `isinstance(v, int)` — in Python `bool` is a subclass of `int`. -/
def isIntInstance : JVal → Bool
  | .jint _ => true
  | .jbool _ => true
  | _ => false

/-- Shape dispatch for a pepy payload: a `downloads` date→count mapping, a
nested `downloads.daily` list, a top-level `daily` or `data` list, or a
bare list. -/
def extractPepyEntries (payload : JVal) : List JVal :=
  match payload with
  | .jdict fields =>
    match pyGet fields "downloads" with
    | .jdict dl =>
      if dl.all (fun kv => isIntInstance kv.2) then
        dl.map (fun kv => JVal.jdict [("date", .jstr kv.1), ("downloads", kv.2)])
      else
        match dl.find? (fun kv => kv.1 = "daily") with
        | some (_, .jlist l) => l
        | _ => []
    | _ =>
      match fields.find? (fun kv => kv.1 = "daily") with
      | some (_, .jlist l) => l
      | _ =>
        match fields.find? (fun kv => kv.1 = "data") with
        | some (_, .jlist l) => l
        | _ => []
  | .jlist l => l
  | _ => []

/-- One pepy candidate attempt (same continue-on-failure policy as the
pypistats loop). -/
def pepyCandidateResult (fetch : String → FetchResult) (url : String) :
    Option (List NormEntry) :=
  match fetch url with
  | .err => none
  | .resp status json =>
    if status ≠ 200 then none
    else
      match json with
      | none => none
      | some payload =>
        let normalized := _normalize_entries (extractPepyEntries payload)
        if normalized.isEmpty then none else some normalized

/-- The `for url in pepy_candidates` loop. -/
def tryPepyCandidates (fetch : String → FetchResult) (urls : List String) (days : Nat) :
    Option (List NormEntry) :=
  match urls with
  | [] => none
  | url :: rest =>
    match pepyCandidateResult fetch url with
    | some normalized => some (capDays normalized days)
    | none => tryPepyCandidates fetch rest days

/-- The whole pepy block: guarded by `if pepy_key:` — with no (truthy) key
the candidate is skipped without consulting the network at all. -/
def pepyAttempt (key : Option String) (fetch : String → FetchResult) (pkg : String)
    (startDate : Option String) (today : PyDate) (days : Nat) :
    Option (List NormEntry) :=
  if strFalsy key then none
  else tryPepyCandidates fetch (pepyCandidates pkg startDate today) days

/-! ## BigQuery candidate (credential gated) -/

/-- The BigQuery collaborator: whether the `google.cloud.bigquery` import
succeeds, and the day-grouped rows of the warehouse query (`none` models
the query raising).  The query text, parameters and the
`start_date or today - 5 years` bound only shape those rows and are
abstracted into them. -/
structure BqEnv where
  clientAvailable : Bool
  rows : Option (List (PyDate × Int))

/-- The BigQuery block of `_fetch_pypi_downloads`: skipped unless one of
the two credential variables is truthy; a missing client library or a
raised query is swallowed by the surrounding `except`; otherwise the rows
are mapped to `{date, downloads}`, sorted by date, and a non-empty result
is truncated and returned. -/
def bqAttempt (getenv : String → Option String) (bq : BqEnv) (days : Nat) :
    Option (List NormEntry) :=
  if strFalsy (pyOrStr (getenv "GOOGLE_APPLICATION_CREDENTIALS")
      (getenv "BIGQUERY_CREDENTIALS")) then none
  else if !bq.clientAvailable then none
  else
    match bq.rows with
    | none => none
    | some rows =>
      let entries :=
        (rows.map (fun r => NormEntry.mk r.1.isoformat r.2)).insertionSort normLe
      if entries.isEmpty then none else some (capDays entries days)

/-! ## The full PyPI resolver -/

/-- All collaborators of one `_fetch_pypi_downloads` call. -/
structure PyPIEnv where
  metaFetch : FetchResult
  statsFetch : String → FetchResult
  configKey : Option String
  getenv : String → Option String
  pepyFetch : String → FetchResult
  bq : BqEnv
  today : PyDate

/-- The message of the `RuntimeError` raised on total resolution failure. -/
def pypiNoDataMsg (pkg : String) : String :=
  "Unable to obtain per-day PyPI download counts for package '" ++ pkg ++
    "' from pypistats/pepy/bigquery."

/-- Model of `_fetch_pypi_downloads`: derive the start date, then try pypistats,
pepy and BigQuery in order, returning the first non-empty truncated
series; raise `RuntimeError` (modelled as `Except.error`) only when every
candidate yields an empty or failing result. -/
def _fetch_pypi_downloads (env : PyPIEnv) (pkg : String) (days : Nat) :
    Except String (List NormEntry) :=
  let startDate := pypiStartDate env.metaFetch env.today
  match tryStatsCandidates env.statsFetch (pypistatsCandidates pkg startDate env.today) days with
  | some res => .ok res
  | none =>
    match pepyAttempt (pepyResolveKey env.configKey env.getenv) env.pepyFetch pkg
        startDate env.today days with
    | some res => .ok res
    | none =>
      match bqAttempt env.getenv env.bq days with
      | some res => .ok res
      | none => .error (pypiNoDataMsg pkg)

/-- The pypistats stage of one resolver call (definitional shorthand). -/
def pypiStatsPart (env : PyPIEnv) (pkg : String) (days : Nat) : Option (List NormEntry) :=
  tryStatsCandidates env.statsFetch
    (pypistatsCandidates pkg (pypiStartDate env.metaFetch env.today) env.today) days

/-- The pepy stage of one resolver call (definitional shorthand). -/
def pypiPepyPart (env : PyPIEnv) (pkg : String) (days : Nat) : Option (List NormEntry) :=
  pepyAttempt (pepyResolveKey env.configKey env.getenv) env.pepyFetch pkg
    (pypiStartDate env.metaFetch env.today) env.today days

/-- The BigQuery stage of one resolver call (definitional shorthand). -/
def pypiBqPart (env : PyPIEnv) (days : Nat) : Option (List NormEntry) :=
  bqAttempt env.getenv env.bq days

/-! ## npm fetcher -/

/-- The chart-key → registry-name alias map at the top of
`_fetch_npm_downloads`. -/
def npmCanonical (pkg : String) : String :=
  if pkg = "cereon-dashboard" then "@cereon/dashboard"
  else if pkg = "cereon-recharts" then "@cereon/recharts"
  else pkg

/-- UTF-8 encoding of one character as byte values. -/
def utf8Bytes (c : Char) : List Nat :=
  let n := c.toNat
  if n < 128 then [n]
  else if n < 2048 then [192 + n / 64, 128 + n % 64]
  else if n < 65536 then [224 + n / 4096, 128 + n / 64 % 64, 128 + n % 64]
  else [240 + n / 262144, 128 + n / 4096 % 64, 128 + n / 64 % 64, 128 + n % 64]

/-- The always-safe characters of `urllib.parse.quote`: ASCII
alphanumerics and `_.-~` (the call uses `safe=""`). -/
def isQuoteSafe (b : Nat) : Bool :=
  (48 ≤ b && b ≤ 57) || (65 ≤ b && b ≤ 90) || (97 ≤ b && b ≤ 122) ||
    b = 95 || b = 46 || b = 45 || b = 126

/-- Upper-case hexadecimal digit. -/
def hexDigit (n : Nat) : Char :=
  if n < 10 then Char.ofNat (48 + n) else Char.ofNat (55 + n)

/-- Model of `urllib.parse.quote(s, safe="")`: percent-encode every UTF-8 byte that
is not an always-safe character. -/
def pyQuote (s : String) : String :=
  String.mk ((s.data.flatMap utf8Bytes).flatMap (fun b =>
    if isQuoteSafe b then [Char.ofNat b]
    else ['%', hexDigit (b / 16), hexDigit (b % 16)]))

/-- The npm registry-metadata step: on a 200 response take
`time.created or time.created_at`, parse it with `Z` replaced by
`+00:00`, and keep it only when it is not in the future; every failure
mode (transport error, non-200, malformed JSON, non-dict shapes, missing
or unparseable field, future date) leaves `start_date = None`. -/
def npmStartDate (registry : FetchResult) (today : PyDate) : Option String :=
  match registry with
  | .err => none
  | .resp status json =>
    if status ≠ 200 then none
    else
      match json with
      | none => none
      | some meta =>
        match meta with
        | .jdict mfields =>
          match pyOr (pyGetD mfields "time" (.jdict [])) (.jdict []) with
          | .jdict tfields =>
            let created := pyOr (pyGet tfields "created") (pyGet tfields "created_at")
            if !created.truthy then none
            else
              match created with
              | .jstr s =>
                match fromisoformatDate (pyReplaceZ s) with
                | none => none
                | some d => if d.key ≤ today.key then some d.isoformat else none
              | _ => none
          | _ => none
        | _ => none

/-- The downloads URL chosen by `_fetch_npm_downloads`: the
`start:today`-range endpoint when a creation date was established,
otherwise the `last-{days}` endpoint. -/
def npmDownloadsUrlOf (startDate : Option String) (today : PyDate) (days : Nat)
    (encoded : String) : String :=
  match startDate with
  | some s =>
    "https://api.npmjs.org/downloads/range/" ++ s ++ ":" ++ today.isoformat ++ "/" ++ encoded
  | none =>
    "https://api.npmjs.org/downloads/range/last-" ++ toString days ++ "/" ++ encoded

/-- A raw npm result record
`{"date": d.get("day") or d.get("date"), "downloads": d.get("downloads", 0)}`
— no coercion, no clamping, no truncation is applied on this path. -/
structure NpmPoint where
  date : JVal
  downloads : JVal

/-- The comprehension over `payload.get("downloads", [])`.  Iterating a
non-list (other than an empty dict or string, which iterate vacuously) or
hitting a non-dict element raises, which the outer `except` re-raises. -/
def npmMapDownloads (payload : JVal) : Except Unit (List NpmPoint) :=
  match payload with
  | .jdict pfields =>
    match pyGetD pfields "downloads" (.jlist []) with
    | .jlist ds =>
      ds.foldr (fun d acc =>
        match acc with
        | .error e => .error e
        | .ok rest =>
          match d with
          | .jdict dfields =>
            .ok (⟨pyOr (pyGet dfields "day") (pyGet dfields "date"),
                  pyGetD dfields "downloads" (.jint 0)⟩ :: rest)
          | _ => .error ()) (.ok [])
    | .jdict [] => .ok []
    | .jstr "" => .ok []
    | _ => .error ()
  | _ => .error ()

/-- The collaborators of one `_fetch_npm_downloads` call. -/
structure NpmEnv where
  registryFetch : FetchResult
  dlFetch : String → FetchResult
  today : PyDate

/-- Model of `_fetch_npm_downloads`: canonicalize and percent-encode the package
name, derive the window start from the registry creation date, fetch the
chosen downloads URL, `raise_for_status`, and map the `downloads` entries;
any failure on the downloads call propagates to the caller
(`Except.error`). -/
def _fetch_npm_downloads (env : NpmEnv) (pkg : String) (days : Nat) :
    Except Unit (List NpmPoint) :=
  let encoded := pyQuote (npmCanonical pkg)
  let startDate := npmStartDate env.registryFetch env.today
  let url := npmDownloadsUrlOf startDate env.today days encoded
  match env.dlFetch url with
  | .err => .error ()
  | .resp status json =>
    if !is2xx status then .error ()
    else
      match json with
      | none => .error ()
      | some payload => npmMapDownloads payload

/-! ## Synthetic series and the card-level fallback -/

/-- One point of `_synth_series`. -/
structure SynthPoint where
  date : String
  value : Int
deriving DecidableEq, Repr

/-- The loop of `_synth_series`.  `driftOf value` abstracts
`int(value * growth)` (float arithmetic, not modelled further — no claim
depends on the drift's magnitude) and `noiseAt i` abstracts the `i`-th
`random.randint(-noise, noise)` draw; the `max(0, ...)` clamp and the
per-iteration date `today - timedelta(days=days - i - 1)` are the source's. -/
def synthLoop (today : PyDate) (days : Nat) (driftOf : Int → Int) (noiseAt : Nat → Int) :
    Nat → Nat → Int → List SynthPoint
  | 0, _, _ => []
  | rem + 1, i, value =>
    let day := dateSubDays today (days - i - 1)
    let value2 := max 0 (value + driftOf value + noiseAt i)
    ⟨day.isoformat, value2⟩ :: synthLoop today days driftOf noiseAt rem (i + 1) value2

/-- Model of `_synth_series(days, base, growth, noise)`: `for i in range(days)` is
the countdown loop started with `days` remaining iterations at `i = 0`. -/
def _synth_series (days : Nat) (base : Int) (driftOf : Int → Int) (noiseAt : Nat → Int)
    (today : PyDate) : List SynthPoint :=
  synthLoop today days driftOf noiseAt days 0 base

/-- The per-package body of `PackageDownloadsAreaCard.handler` for a PyPI
package (mock mode off): the resolver's series is used on success, and any
raised exception — in particular the resolver's "no authoritative data"
`RuntimeError` — is caught and replaced by `_synth_series(days, base=1000)`.
The handler re-keys each point as `{"date": ..., pkg: ...}`; the model
keeps the `(date, value)` payload. -/
def handlerPkgSeries (fetchRes : Except String (List NormEntry)) (days : Nat)
    (driftOf : Int → Int) (noiseAt : Nat → Int) (today : PyDate) : List SynthPoint :=
  match fetchRes with
  | .ok data => data.map (fun d => ⟨d.date, d.downloads⟩)
  | .error _ => _synth_series days 1000 driftOf noiseAt today

/-! ## Spec-side definitions for the start-date refinement claim

The source computes the running minimum over *all* parsed upload dates and
then guards it against `today`; the spec describes "the minimum upload
timestamp not in the future".  The following definitions state the spec's
reading so the two can be proved equal. -/

/-- Running minimum in scan order, with the source's strict `<` update. -/
def runningMin (acc : Option PyDate) : List PyDate → Option PyDate
  | [] => acc
  | d :: rest => runningMin (minStep acc d) rest

/-- The `if earliest and earliest <= today` guard as a function. -/
def guardToday (today : PyDate) : Option PyDate → Option PyDate
  | none => none
  | some e => if e.key ≤ today.key then some e else none

/-- Same traversal as `scanFiles`, collecting the parsed upload dates
instead of folding them into a minimum. -/
def collectFiles : List JVal → Except Unit (List PyDate)
  | [] => .ok []
  | f :: rest =>
    match f with
    | .jdict fields =>
      let t := pyOr (pyGet fields "upload_time_iso_8601") (pyGet fields "upload_time")
      if !t.truthy then collectFiles rest
      else
        match parseUploadTime t with
        | none => collectFiles rest
        | some dt => (collectFiles rest).map (fun ds => dt :: ds)
    | _ => .error ()

/-- Same traversal as `scanReleases`, collecting the parsed upload dates. -/
def collectReleases : List JVal → Except Unit (List PyDate)
  | [] => .ok []
  | vf :: rest =>
    match pyOr vf (.jlist []) with
    | .jlist files =>
      match collectFiles files with
      | .error e => .error e
      | .ok ds =>
        match collectReleases rest with
        | .error e => .error e
        | .ok ds2 => .ok (ds ++ ds2)
    | _ => .error ()

/-- The upload dates visible to one metadata lookup, `none` on any failure
mode (the same failure modes as `pypiStartDate`). -/
def pypiUploadDates (metaFetch : FetchResult) : Option (List PyDate) :=
  match metaFetch with
  | .err => none
  | .resp status json =>
    if !is2xx status then none
    else
      match json with
      | none => none
      | some meta =>
        match meta with
        | .jdict mfields =>
          match pyOr (pyGetD mfields "releases" (.jdict [])) (.jdict []) with
          | .jdict rels =>
            match collectReleases (rels.map (fun kv => kv.2)) with
            | .error _ => none
            | .ok ds => some ds
          | _ => none
        | _ => none

/-- Spec-side start date: the minimum (in scan order, first of ties) of
the upload dates that are not in the future. -/
def specEarliestNonFuture (ds : List PyDate) (today : PyDate) : Option PyDate :=
  runningMin none (ds.filter (fun d => d.key ≤ today.key))

/-! ## Concrete scenario environments (used by witnesses and counterexamples) -/

/-- An environment with no variables set. -/
def envNone : String → Option String := fun _ => none

/-- pypistats collaborator for the short-circuit scenario: the `overall`
aggregator endpoint (and every other URL) answers 500, while the `recent`
endpoint succeeds with five valid entries. -/
def statsFetch500Recent5 : String → FetchResult := fun url =>
  if url = "https://pypistats.org/api/packages/cereon-sdk/recent" then
    .resp 200 (some (.jdict [("data", .jlist
      [.jdict [("date", .jstr "2024-01-27"), ("downloads", .jint 11)],
       .jdict [("date", .jstr "2024-01-28"), ("downloads", .jint 12)],
       .jdict [("date", .jstr "2024-01-29"), ("downloads", .jint 13)],
       .jdict [("date", .jstr "2024-01-30"), ("downloads", .jint 14)],
       .jdict [("date", .jstr "2024-01-31"), ("downloads", .jint 15)]])]))
  else .resp 500 none

/-- The five entries served by `statsFetch500Recent5`. -/
def recent5Entries : List NormEntry :=
  [⟨"2024-01-27", 11⟩, ⟨"2024-01-28", 12⟩, ⟨"2024-01-29", 13⟩,
   ⟨"2024-01-30", 14⟩, ⟨"2024-01-31", 15⟩]

/-- pypistats collaborator whose `recent` endpoint serves a negative count
and a duplicated date. -/
def statsFetchNegDup : String → FetchResult := fun url =>
  if url = "https://pypistats.org/api/packages/cereon-sdk/recent" then
    .resp 200 (some (.jdict [("data", .jlist
      [.jdict [("date", .jstr "2024-01-05"), ("downloads", .jint 3)],
       .jdict [("date", .jstr "2024-01-05"), ("downloads", .jint (-5))]])]))
  else .resp 500 none

/-- Full resolver environment around `statsFetchNegDup`. -/
def envNegDup : PyPIEnv :=
  ⟨.err, statsFetchNegDup, none, envNone, fun _ => .err, ⟨false, none⟩, ⟨2024, 2, 1⟩⟩

/-- Environment in which every candidate of the PyPI chain fails. -/
def envAllFail : PyPIEnv :=
  ⟨.err, fun _ => .err, none, envNone, fun _ => .err, ⟨false, none⟩, ⟨2024, 2, 1⟩⟩

/-- npm registry answer with a `time.created` field. -/
def npmRegCreated (c : String) : FetchResult :=
  .resp 200 (some (.jdict [("time", .jdict [("created", .jstr c)])]))

/-- npm environment whose downloads endpoint serves two days of data
(used with `days = 1` to exhibit the absence of truncation). -/
def npmEnvTwo : NpmEnv :=
  ⟨.err,
   fun _ => .resp 200 (some (.jdict [("downloads", .jlist
     [.jdict [("day", .jstr "2024-01-01"), ("downloads", .jint 1)],
      .jdict [("day", .jstr "2024-01-02"), ("downloads", .jint 2)]])])),
   ⟨2024, 2, 1⟩⟩

/-- Re-encode a normalized entry as the JSON record it prints as (used to
state idempotence of normalization). -/
def encodeEntry (e : NormEntry) : JVal :=
  .jdict [("date", .jstr e.date), ("downloads", .jint e.downloads)]

/-- The date string of `e` is a canonical ISO date: it parses and
round-trips through `isoformat`. -/
def canonicalDate (s : String) : Prop :=
  (fromisoformatDate s).map PyDate.isoformat = some s

instance : DecidablePred canonicalDate :=
  fun s => inferInstanceAs (Decidable ((fromisoformatDate s).map PyDate.isoformat = some s))

/-! ## General lemmas about the embedded operations -/

theorem charListLe_total : ∀ as bs : List Char, charListLe as bs ∨ charListLe bs as
  | [], _ => Or.inl rfl
  | _ :: _, [] => Or.inr rfl
  | a :: as, b :: bs => by
    by_cases hab : a = b
    · subst hab
      simpa [charListLe] using charListLe_total as bs
    · rcases lt_or_gt_of_ne hab with h | h
      · exact Or.inl (by simp [charListLe, hab, h])
      · exact Or.inr (by simp [charListLe, Ne.symm hab, h])

theorem charListLe_trans :
    ∀ as bs cs : List Char, charListLe as bs → charListLe bs cs → charListLe as cs
  | [], _, _, _, _ => rfl
  | _ :: _, [], _, h, _ => by simp [charListLe] at h
  | _ :: _, _ :: _, [], _, h2 => by simp [charListLe] at h2
  | a :: as, b :: bs, c :: cs, h, h2 => by
    by_cases hab : a = b <;> by_cases hbc : b = c
    · subst hab; subst hbc
      simp only [charListLe, if_pos rfl] at h h2 ⊢
      exact charListLe_trans _ _ _ h h2
    · subst hab
      simpa [charListLe, hbc] using h2
    · subst hbc
      simpa [charListLe, hab] using h
    · simp only [charListLe, if_neg hab, if_neg hbc, decide_eq_true_eq] at h h2
      have hac : a < c := lt_trans h h2
      simp [charListLe, ne_of_lt hac, hac]

theorem normLe_isTotal : IsTotal NormEntry normLe :=
  ⟨fun a b => by
    rcases charListLe_total a.date.data b.date.data with h | h
    · exact Or.inl h
    · exact Or.inr h⟩

theorem normLe_isTrans : IsTrans NormEntry normLe :=
  ⟨fun _ _ _ h h2 => charListLe_trans _ _ _ h h2⟩

/-- The output of `_normalize_entries` is always sorted (non-strictly)
ascending by date string. -/
theorem normalize_pairwise (entries : List JVal) :
    List.Pairwise normLe (_normalize_entries entries) := by
  haveI := normLe_isTotal
  haveI := normLe_isTrans
  exact List.sorted_insertionSort normLe (entries.filterMap normalizeOne)

theorem pairwise_capDays {l : List NormEntry} (h : List.Pairwise normLe l) (days : Nat) :
    List.Pairwise normLe (capDays l days) := by
  unfold capDays pySliceLast
  split
  · split
    · exact h
    · exact h.sublist (List.drop_sublist _ _)
  · exact h

theorem length_capDays {l : List NormEntry} {days : Nat} (hd : 1 ≤ days) :
    (capDays l days).length ≤ days := by
  unfold capDays pySliceLast
  split
  · split
    · omega
    · simp only [List.length_drop]
      omega
  · omega


theorem statsCandidateResult_pairwise {fetch : String → FetchResult} {url : String}
    {n : List NormEntry} (h : statsCandidateResult fetch url = some n) :
    List.Pairwise normLe n := by
  unfold statsCandidateResult at h
  cases hf : fetch url with
  | err => rw [hf] at h; cases h
  | resp status json =>
    rw [hf] at h
    dsimp only at h
    by_cases hs : status ≠ 200
    · rw [if_pos hs] at h; cases h
    · rw [if_neg hs] at h
      cases json with
      | none => cases h
      | some payload =>
        dsimp only at h
        by_cases he : (_normalize_entries (extractStatsEntries payload)).isEmpty = true
        · rw [if_pos he] at h; cases h
        · rw [if_neg he] at h
          cases h
          exact normalize_pairwise _

theorem pepyCandidateResult_pairwise {fetch : String → FetchResult} {url : String}
    {n : List NormEntry} (h : pepyCandidateResult fetch url = some n) :
    List.Pairwise normLe n := by
  unfold pepyCandidateResult at h
  cases hf : fetch url with
  | err => rw [hf] at h; cases h
  | resp status json =>
    rw [hf] at h
    dsimp only at h
    by_cases hs : status ≠ 200
    · rw [if_pos hs] at h; cases h
    · rw [if_neg hs] at h
      cases json with
      | none => cases h
      | some payload =>
        dsimp only at h
        by_cases he : (_normalize_entries (extractPepyEntries payload)).isEmpty = true
        · rw [if_pos he] at h; cases h
        · rw [if_neg he] at h
          cases h
          exact normalize_pairwise _

theorem tryStatsCandidates_ok {fetch : String → FetchResult} {days : Nat}
    {l : List NormEntry} (hd : 1 ≤ days) :
    ∀ {urls : List String}, tryStatsCandidates fetch urls days = some l →
      l.length ≤ days ∧ List.Pairwise normLe l := by
  intro urls
  induction urls with
  | nil => intro h; cases h
  | cons url rest ih =>
    intro h
    rw [tryStatsCandidates] at h
    cases hc : statsCandidateResult fetch url with
    | none => rw [hc] at h; dsimp only at h; exact ih h
    | some n =>
      rw [hc] at h
      dsimp only at h
      cases h
      exact ⟨length_capDays hd, pairwise_capDays (statsCandidateResult_pairwise hc) days⟩

theorem tryPepyCandidates_ok {fetch : String → FetchResult} {days : Nat}
    {l : List NormEntry} (hd : 1 ≤ days) :
    ∀ {urls : List String}, tryPepyCandidates fetch urls days = some l →
      l.length ≤ days ∧ List.Pairwise normLe l := by
  intro urls
  induction urls with
  | nil => intro h; cases h
  | cons url rest ih =>
    intro h
    rw [tryPepyCandidates] at h
    cases hc : pepyCandidateResult fetch url with
    | none => rw [hc] at h; dsimp only at h; exact ih h
    | some n =>
      rw [hc] at h
      dsimp only at h
      cases h
      exact ⟨length_capDays hd, pairwise_capDays (pepyCandidateResult_pairwise hc) days⟩

theorem pepyAttempt_ok {key : Option String} {fetch : String → FetchResult} {pkg : String}
    {startDate : Option String} {today : PyDate} {days : Nat} {l : List NormEntry}
    (hd : 1 ≤ days) (h : pepyAttempt key fetch pkg startDate today days = some l) :
    l.length ≤ days ∧ List.Pairwise normLe l := by
  unfold pepyAttempt at h
  by_cases hk : strFalsy key = true
  · rw [if_pos hk] at h; cases h
  · rw [if_neg hk] at h
    exact tryPepyCandidates_ok hd h

theorem bqAttempt_ok {getenv : String → Option String} {bq : BqEnv} {days : Nat}
    {l : List NormEntry} (hd : 1 ≤ days) (h : bqAttempt getenv bq days = some l) :
    l.length ≤ days ∧ List.Pairwise normLe l := by
  unfold bqAttempt at h
  by_cases hcred : strFalsy (pyOrStr (getenv "GOOGLE_APPLICATION_CREDENTIALS")
      (getenv "BIGQUERY_CREDENTIALS")) = true
  · rw [if_pos hcred] at h; cases h
  · rw [if_neg hcred] at h
    by_cases hav : (!bq.clientAvailable) = true
    · rw [if_pos hav] at h; cases h
    · rw [if_neg hav] at h
      cases hr : bq.rows with
      | none => rw [hr] at h; cases h
      | some rows =>
        rw [hr] at h
        dsimp only at h
        by_cases he :
            ((rows.map (fun r => NormEntry.mk r.1.isoformat r.2)).insertionSort normLe).isEmpty
              = true
        · rw [if_pos he] at h; cases h
        · rw [if_neg he] at h
          cases h
          refine ⟨length_capDays hd, pairwise_capDays ?_ days⟩
          haveI := normLe_isTotal
          haveI := normLe_isTrans
          exact List.sorted_insertionSort normLe _

/-- The resolver is definitionally the three-stage match (helper). -/
theorem pypi_resolver_eq_match (env : PyPIEnv) (pkg : String) (days : Nat) :
    _fetch_pypi_downloads env pkg days =
      (match pypiStatsPart env pkg days with
       | some res => .ok res
       | none =>
         match pypiPepyPart env pkg days with
         | some res => .ok res
         | none =>
           match pypiBqPart env days with
           | some res => .ok res
           | none => .error (pypiNoDataMsg pkg)) := rfl

/-! ## Claim theorems -/

/-- Claim C1, counterexample: the claim "every point has a non-negative
count (values below zero clamped to zero), dates strictly ascending with
no duplicates, at most `window_days` points" is false on the code.  On a
provider answer containing a `-5` count and a duplicated date, the PyPI
resolver returns the `-5` unclamped and both points share one date; and
the npm fetcher returns two points for `window_days = 1`. -/
theorem C1_counterexample :
    _fetch_pypi_downloads envNegDup "cereon-sdk" 30 =
        .ok [⟨"2024-01-05", 3⟩, ⟨"2024-01-05", -5⟩] ∧
      (-5 : Int) < 0 ∧
    _fetch_npm_downloads npmEnvTwo "p" 1 =
        .ok [⟨.jstr "2024-01-01", .jint 1⟩, ⟨.jstr "2024-01-02", .jint 2⟩] ∧
      1 < 2 :=
  ⟨rfl, by decide, rfl, by decide⟩

/-- Claim C1 (amended): for every environment and `window_days ≥ 1`, a
successful PyPI resolution returns at most `window_days` points sorted in
non-decreasing (not necessarily strictly ascending) date order; the
counts are integers passed through from the provider without clamping, so
negative values and duplicate dates can occur, and the npm path applies
no truncation at all. -/
theorem C1_amended_pypi_series_bounds (env : PyPIEnv) (pkg : String) (days : Nat)
    (hd : 1 ≤ days) (l : List NormEntry)
    (h : _fetch_pypi_downloads env pkg days = .ok l) :
    l.length ≤ days ∧ List.Pairwise normLe l := by
  rw [pypi_resolver_eq_match] at h
  cases h1 : pypiStatsPart env pkg days with
  | some res => rw [h1] at h; dsimp only at h; cases h; exact tryStatsCandidates_ok hd h1
  | none =>
    rw [h1] at h; dsimp only at h
    cases h2 : pypiPepyPart env pkg days with
    | some res => rw [h2] at h; dsimp only at h; cases h; exact pepyAttempt_ok hd h2
    | none =>
      rw [h2] at h; dsimp only at h
      cases h3 : pypiBqPart env days with
      | some res => rw [h3] at h; dsimp only at h; cases h; exact bqAttempt_ok hd h3
      | none => rw [h3] at h; cases h

/-- Witness for `C1_amended_pypi_series_bounds` at a concrete resolution. -/
theorem C1_amended_witness :
    ([⟨"2024-01-05", 3⟩, ⟨"2024-01-05", -5⟩] : List NormEntry).length ≤ 30 ∧
      List.Pairwise normLe [⟨"2024-01-05", 3⟩, ⟨"2024-01-05", -5⟩] :=
  C1_amended_pypi_series_bounds envNegDup "cereon-sdk" 30 (by decide) _ rfl

/-- Claim C2: the pypistats chain returns the truncation of the first
candidate whose normalized series is non-empty without consulting the
rest of the list, advances past failing candidates, and in the concrete
scenario — metadata lookup failing, the aggregator `overall` endpoint
answering 500, the `recent` endpoint answering five valid entries — the
resolver returns exactly those five entries for every possible behaviour
of the pepy collaborator, the API-key configuration and the BigQuery
collaborator (the paid third-party service is never contacted). -/
theorem C2_chain_shortcircuit :
    (∀ (fetch : String → FetchResult) (url : String) (rest : List String) (days : Nat)
        (n : List NormEntry), statsCandidateResult fetch url = some n →
        tryStatsCandidates fetch (url :: rest) days = some (capDays n days)) ∧
    (∀ (fetch : String → FetchResult) (url : String) (rest : List String) (days : Nat),
        statsCandidateResult fetch url = none →
        tryStatsCandidates fetch (url :: rest) days = tryStatsCandidates fetch rest days) ∧
    (∀ (pepyFetch : String → FetchResult) (configKey : Option String)
        (getenv : String → Option String) (bq : BqEnv),
        _fetch_pypi_downloads
            ⟨.err, statsFetch500Recent5, configKey, getenv, pepyFetch, bq, ⟨2024, 2, 1⟩⟩
            "cereon-sdk" 30 = .ok recent5Entries) := by
  refine ⟨?_, ?_, fun _ _ _ _ => rfl⟩
  · intro fetch url rest days n hc
    rw [tryStatsCandidates, hc]
  · intro fetch url rest days hc
    rw [tryStatsCandidates, hc]

/-- Witness for `C2_chain_shortcircuit` at a concrete candidate list. -/
theorem C2_witness :
    tryStatsCandidates statsFetch500Recent5
        ["https://pypistats.org/api/packages/cereon-sdk/recent"] 30 =
      some (capDays recent5Entries 30) :=
  C2_chain_shortcircuit.1 statsFetch500Recent5
    "https://pypistats.org/api/packages/cereon-sdk/recent" [] 30 recent5Entries rfl

/-- Claim C4: a PyPI resolution either succeeds or fails with exactly the
"no authoritative data" `RuntimeError`; that error occurs exactly when
all three candidate stages produce nothing (every per-candidate failure
having been absorbed inside the stages); no other error reaches the
caller; and the message carries the package identifier. -/
theorem C4_pypi_error_policy (env : PyPIEnv) (pkg : String) (days : Nat) :
    ((∃ l, _fetch_pypi_downloads env pkg days = .ok l) ∨
        _fetch_pypi_downloads env pkg days = .error (pypiNoDataMsg pkg)) ∧
    (_fetch_pypi_downloads env pkg days = .error (pypiNoDataMsg pkg) ↔
        pypiStatsPart env pkg days = none ∧ pypiPepyPart env pkg days = none ∧
          pypiBqPart env days = none) ∧
    (∀ m, _fetch_pypi_downloads env pkg days = .error m → m = pypiNoDataMsg pkg) ∧
    (∃ pre post, pypiNoDataMsg pkg = pre ++ pkg ++ post) := by
  have hmsg : ∃ pre post, pypiNoDataMsg pkg = pre ++ pkg ++ post :=
    ⟨"Unable to obtain per-day PyPI download counts for package '",
     "' from pypistats/pepy/bigquery.", rfl⟩
  have heq := pypi_resolver_eq_match env pkg days
  cases h1 : pypiStatsPart env pkg days with
  | some res =>
    rw [h1] at heq; dsimp only at heq
    refine ⟨Or.inl ⟨res, heq⟩, ⟨?_, ?_⟩, ?_, hmsg⟩
    · intro h; rw [heq] at h; cases h
    · rintro ⟨ha, -, -⟩; cases ha
    · intro m hm; rw [heq] at hm; cases hm
  | none =>
    rw [h1] at heq; dsimp only at heq
    cases h2 : pypiPepyPart env pkg days with
    | some res =>
      rw [h2] at heq; dsimp only at heq
      refine ⟨Or.inl ⟨res, heq⟩, ⟨?_, ?_⟩, ?_, hmsg⟩
      · intro h; rw [heq] at h; cases h
      · rintro ⟨-, ha, -⟩; cases ha
      · intro m hm; rw [heq] at hm; cases hm
    | none =>
      rw [h2] at heq; dsimp only at heq
      cases h3 : pypiBqPart env days with
      | some res =>
        rw [h3] at heq; dsimp only at heq
        refine ⟨Or.inl ⟨res, heq⟩, ⟨?_, ?_⟩, ?_, hmsg⟩
        · intro h; rw [heq] at h; cases h
        · rintro ⟨-, -, ha⟩; cases ha
        · intro m hm; rw [heq] at hm; cases hm
      | none =>
        rw [h3] at heq; dsimp only at heq
        refine ⟨Or.inr heq, ⟨fun _ => ⟨rfl, rfl, rfl⟩, fun _ => heq⟩, ?_, hmsg⟩
        intro m hm
        rw [heq] at hm
        cases hm
        rfl

/-- Witness for `C4_pypi_error_policy`: in an environment where every
candidate fails, the resolver raises exactly the "no authoritative data"
error. -/
theorem C4_witness :
    _fetch_pypi_downloads envAllFail "cereon-sdk" 30 =
      .error (pypiNoDataMsg "cereon-sdk") :=
  (C4_pypi_error_policy envAllFail "cereon-sdk" 30).2.1.mpr ⟨rfl, rfl, rfl⟩

/-- Characterization of the npm creation-date step over a registry answer
carrying `time.created = c` (helper). -/
theorem npmStartDate_created (c : String) (today : PyDate) :
    npmStartDate (npmRegCreated c) today =
      (if c = "" then none
       else
         match fromisoformatDate (pyReplaceZ c) with
         | none => none
         | some d => if d.key ≤ today.key then some d.isoformat else none) := by
  by_cases h0 : c = ""
  · subst h0; rfl
  · rw [if_neg h0]
    unfold npmStartDate npmRegCreated
    dsimp only
    have htr : (JVal.jstr c).truthy = true := by simp [JVal.truthy, h0]
    simp only [pyGet, pyGetD, pyOr, List.find?, htr]
    simp [JVal.truthy, h0]

/-- A string whose `Z`-replacement parses as a date is non-empty (helper). -/
theorem parse_replaceZ_ne_empty {c : String} {d : PyDate}
    (hp : fromisoformatDate (pyReplaceZ c) = some d) : ¬ c = "" := by
  intro h0
  subst h0
  exact Option.noConfusion hp

/-- Claim C3: with a registry creation date that parses and is not in the
future, the npm downloads request uses the colon-delimited range
`[creation_date, today]`; with a lookup failure, a missing field, an
unparseable value or a future date it uses the `last-N-days` endpoint; in
particular creation date `2024-01-01` with today `2024-02-01` yields the
range `2024-01-01:2024-02-01` rather than `last-30`. -/
theorem C3_npm_window_selection :
    (npmDownloadsUrlOf (npmStartDate (npmRegCreated "2024-01-01") ⟨2024, 2, 1⟩)
        ⟨2024, 2, 1⟩ 30 (pyQuote (npmCanonical "x")) =
      "https://api.npmjs.org/downloads/range/2024-01-01:2024-02-01/x") ∧
    (∀ (c : String) (d : PyDate) (today : PyDate) (days : Nat) (enc : String),
        fromisoformatDate (pyReplaceZ c) = some d → d.key ≤ today.key →
        npmDownloadsUrlOf (npmStartDate (npmRegCreated c) today) today days enc =
          "https://api.npmjs.org/downloads/range/" ++ d.isoformat ++ ":" ++
            today.isoformat ++ "/" ++ enc) ∧
    (∀ (c : String) (d : PyDate) (today : PyDate) (days : Nat) (enc : String),
        fromisoformatDate (pyReplaceZ c) = some d → ¬ d.key ≤ today.key →
        npmDownloadsUrlOf (npmStartDate (npmRegCreated c) today) today days enc =
          "https://api.npmjs.org/downloads/range/last-" ++ toString days ++ "/" ++ enc) ∧
    (∀ (c : String) (today : PyDate) (days : Nat) (enc : String),
        fromisoformatDate (pyReplaceZ c) = none →
        npmDownloadsUrlOf (npmStartDate (npmRegCreated c) today) today days enc =
          "https://api.npmjs.org/downloads/range/last-" ++ toString days ++ "/" ++ enc) ∧
    (∀ (today : PyDate) (days : Nat) (enc : String),
        npmDownloadsUrlOf (npmStartDate .err today) today days enc =
          "https://api.npmjs.org/downloads/range/last-" ++ toString days ++ "/" ++ enc) ∧
    (∀ (today : PyDate) (days : Nat) (enc : String),
        npmDownloadsUrlOf (npmStartDate (.resp 200 (some (.jdict []))) today) today days enc =
          "https://api.npmjs.org/downloads/range/last-" ++ toString days ++ "/" ++ enc) := by
  refine ⟨rfl, ?_, ?_, ?_, fun _ _ _ => rfl, fun _ _ _ => rfl⟩
  · intro c d today days enc hp hle
    rw [npmStartDate_created, if_neg (parse_replaceZ_ne_empty hp), hp]
    dsimp only
    rw [if_pos hle]
    rfl
  · intro c d today days enc hp hle
    rw [npmStartDate_created, if_neg (parse_replaceZ_ne_empty hp), hp]
    dsimp only
    rw [if_neg hle]
    rfl
  · intro c today days enc hp
    rw [npmStartDate_created]
    by_cases h0 : c = ""
    · rw [if_pos h0]; rfl
    · rw [if_neg h0, hp]; rfl

/-- Witness for `C3_npm_window_selection`: a `Z`-suffixed creation
timestamp in the past selects the range endpoint. -/
theorem C3_witness :
    npmDownloadsUrlOf
        (npmStartDate (npmRegCreated "2024-01-01T00:00:00.000Z") ⟨2024, 2, 1⟩)
        ⟨2024, 2, 1⟩ 30 "x" =
      "https://api.npmjs.org/downloads/range/" ++ PyDate.isoformat ⟨2024, 1, 1⟩ ++ ":" ++
        PyDate.isoformat ⟨2024, 2, 1⟩ ++ "/" ++ "x" :=
  C3_npm_window_selection.2.1 "2024-01-01T00:00:00.000Z" ⟨2024, 1, 1⟩ ⟨2024, 2, 1⟩ 30 "x"
    rfl (by decide)

theorem runningMin_append (a b : List PyDate) :
    ∀ acc, runningMin acc (a ++ b) = runningMin (runningMin acc a) b := by
  induction a with
  | nil => intro acc; rfl
  | cons x xs ih =>
    intro acc
    simp only [List.cons_append, runningMin]
    exact ih _

theorem scanFiles_eq (files : List JVal) :
    ∀ acc, scanFiles files acc = (collectFiles files).map (runningMin acc) := by
  induction files with
  | nil => intro acc; rfl
  | cons f rest ih =>
    intro acc
    unfold scanFiles collectFiles
    cases f
    case jdict fields =>
      dsimp only
      by_cases ht :
          (!(pyOr (pyGet fields "upload_time_iso_8601") (pyGet fields "upload_time")).truthy)
            = true
      · rw [if_pos ht, if_pos ht]; exact ih acc
      · rw [if_neg ht, if_neg ht]
        cases hp : parseUploadTime
            (pyOr (pyGet fields "upload_time_iso_8601") (pyGet fields "upload_time")) with
        | none => exact ih acc
        | some dt =>
          dsimp only
          rw [ih (minStep acc dt)]
          cases collectFiles rest <;> rfl
    all_goals rfl

theorem scanReleases_eq (vals : List JVal) :
    ∀ acc, scanReleases vals acc = (collectReleases vals).map (runningMin acc) := by
  induction vals with
  | nil => intro acc; rfl
  | cons vf rest ih =>
    intro acc
    unfold scanReleases collectReleases
    cases hv : pyOr vf (.jlist [])
    case jlist files =>
      dsimp only
      rw [scanFiles_eq]
      cases hcf : collectFiles files with
      | error e => rfl
      | ok ds =>
        dsimp only [Except.map]
        rw [ih (runningMin acc ds)]
        cases hcr : collectReleases rest with
        | error e => rfl
        | ok ds2 =>
          dsimp only [Except.map]
          rw [runningMin_append]
    all_goals rfl

theorem guard_minStep_pos (today x : PyDate) (acc : Option PyDate)
    (px : x.key ≤ today.key) :
    guardToday today (minStep acc x) = minStep (guardToday today acc) x := by
  cases acc with
  | none => simp [minStep, guardToday, px]
  | some a =>
    by_cases hxa : x.key < a.key <;> by_cases hat : a.key ≤ today.key <;>
      simp [minStep, guardToday, px, hxa, hat] <;> omega

theorem guard_minStep_neg (today x : PyDate) (acc : Option PyDate)
    (px : ¬ x.key ≤ today.key) :
    guardToday today (minStep acc x) = guardToday today acc := by
  cases acc with
  | none => simp [minStep, guardToday, px]
  | some a =>
    by_cases hxa : x.key < a.key <;> by_cases hat : a.key ≤ today.key <;>
      simp [minStep, guardToday, px, hxa, hat] <;> omega

theorem guard_runningMin (today : PyDate) (xs : List PyDate) :
    ∀ acc, guardToday today (runningMin acc xs) =
      runningMin (guardToday today acc) (xs.filter (fun d => d.key ≤ today.key)) := by
  induction xs with
  | nil => intro acc; rfl
  | cons x rest ih =>
    intro acc
    simp only [runningMin, List.filter_cons]
    by_cases px : x.key ≤ today.key
    · rw [if_pos (by simpa using px)]
      simp only [runningMin]
      rw [ih (minStep acc x), guard_minStep_pos today x acc px]
    · rw [if_neg (by simpa using px)]
      rw [ih (minStep acc x), guard_minStep_neg today x acc px]

/-- Claim C5: the PyPI start date is the minimum upload timestamp, over
all release files of the metadata, that is not in the future (formally:
the source's scan — minimum over all parsed timestamps guarded against
`today` — coincides with filtering out future dates first and then taking
the minimum); and every failure mode (metadata lookup failure, no
parseable timestamp, all timestamps in the future) yields `none` rather
than an error. -/
theorem C5_start_date_is_min_nonfuture (metaFetch : FetchResult) (today : PyDate) :
    pypiStartDate metaFetch today =
      (match pypiUploadDates metaFetch with
       | none => none
       | some ds => (specEarliestNonFuture ds today).map PyDate.isoformat) := by
  unfold pypiStartDate pypiUploadDates
  cases metaFetch with
  | err => rfl
  | resp status json =>
    dsimp only
    by_cases hs : (!is2xx status) = true
    · rw [if_pos hs, if_pos hs]
    · rw [if_neg hs, if_neg hs]
      cases json with
      | none => rfl
      | some meta =>
        cases meta with
        | jnull => rfl
        | jbool b => rfl
        | jint n => rfl
        | jstr s2 => rfl
        | jlist l => rfl
        | jdict mfields =>
          dsimp only
          cases hrel : pyOr (pyGetD mfields "releases" (.jdict [])) (.jdict []) with
          | jnull => rfl
          | jbool b => rfl
          | jint n => rfl
          | jstr s2 => rfl
          | jlist l => rfl
          | jdict rels =>
            dsimp only
            rw [scanReleases_eq]
            cases hcr : collectReleases (rels.map (fun kv => kv.2)) with
            | error e => rfl
            | ok ds =>
              dsimp only [Except.map]
              have hg := guard_runningMin today ds none
              rw [show guardToday today none = none from rfl] at hg
              unfold specEarliestNonFuture
              rw [← hg]
              cases hrm : runningMin none ds with
              | none => rfl
              | some e =>
                unfold guardToday
                dsimp only
                by_cases he : e.key ≤ today.key
                · rw [if_pos he, if_pos he]
                  rfl
                · rw [if_neg he, if_neg he]
                  rfl

theorem synthLoop_length (today : PyDate) (days : Nat) (driftOf : Int → Int)
    (noiseAt : Nat → Int) :
    ∀ (rem i : Nat) (value : Int),
      (synthLoop today days driftOf noiseAt rem i value).length = rem := by
  intro rem
  induction rem with
  | zero => intro i value; rfl
  | succ r ih =>
    intro i value
    simp only [synthLoop, List.length_cons, ih]

theorem synthLoop_nonneg (today : PyDate) (days : Nat) (driftOf : Int → Int)
    (noiseAt : Nat → Int) :
    ∀ (rem i : Nat) (value : Int) (p : SynthPoint),
      p ∈ synthLoop today days driftOf noiseAt rem i value → 0 ≤ p.value := by
  intro rem
  induction rem with
  | zero => intro i value p hp; cases hp
  | succ r ih =>
    intro i value p hp
    simp only [synthLoop, List.mem_cons] at hp
    rcases hp with hp | hp
    · subst hp
      exact le_max_left 0 _
    · exact ih (i + 1) _ p hp

/-- Claim C6: when the PyPI resolver raises, the card-level handler
substitutes `_synth_series(days, base=1000)`: exactly `window_days`
points, every value clamped non-negative by `max(0, ...)`; so from the
caller's point of view resolution always yields a series and no error
propagates. -/
theorem C6_handler_synth_fallback (days : Nat) (driftOf : Int → Int) (noiseAt : Nat → Int)
    (today : PyDate) (msg : String) :
    handlerPkgSeries (.error msg) days driftOf noiseAt today =
        _synth_series days 1000 driftOf noiseAt today ∧
      (handlerPkgSeries (.error msg) days driftOf noiseAt today).length = days ∧
      (∀ p ∈ handlerPkgSeries (.error msg) days driftOf noiseAt today, 0 ≤ p.value) :=
  ⟨rfl, synthLoop_length today days driftOf noiseAt days 0 1000,
   fun p hp => synthLoop_nonneg today days driftOf noiseAt days 0 1000 p hp⟩

/-- Witness for `C6_handler_synth_fallback` on a one-day window. -/
theorem C6_witness :
    (handlerPkgSeries (.error "boom") 1 (fun _ => 0) (fun _ => -5) ⟨2024, 1, 2⟩).length = 1 ∧
      (0 : Int) ≤ (SynthPoint.mk "2024-01-02" 995).value :=
  ⟨(C6_handler_synth_fallback 1 (fun _ => 0) (fun _ => -5) ⟨2024, 1, 2⟩ "boom").2.1,
   (C6_handler_synth_fallback 1 (fun _ => 0) (fun _ => -5) ⟨2024, 1, 2⟩ "boom").2.2
     ⟨"2024-01-02", 995⟩ (by decide)⟩

theorem normalizeOne_encode {e : NormEntry} (hd : canonicalDate e.date)
    (hn : e.downloads ≠ 0) : normalizeOne (encodeEntry e) = some e := by
  obtain ⟨d, hparse, hiso⟩ := Option.map_eq_some'.mp hd
  have hne : e.date ≠ "" := by
    intro h0
    rw [h0] at hparse
    exact Option.noConfusion hparse
  unfold normalizeOne encodeEntry
  simp only [pyGet, pyGetD, pyOr, List.find?]
  simp [JVal.truthy, JVal.isNull, JVal.pyStr, pyInt, hne, hn, hparse, hiso]

theorem filterMap_id_of_mem {α : Type} (f : α → Option α) :
    ∀ l : List α, (∀ a ∈ l, f a = some a) → List.filterMap f l = l := by
  intro l
  induction l with
  | nil => intro _; rfl
  | cons a rest ih =>
    intro h
    rw [List.filterMap_cons, h a (List.mem_cons_self a rest),
      ih (fun b hb => h b (List.mem_cons_of_mem a hb))]

/-- Claim C7, counterexample: normalization is not idempotent.  The list
`[{"date": "2024-01-01", "downloads": 0}]` is in normalized form (ISO
date, integer count, sorted), yet re-normalizing it drops the entry
because `0` is falsy in the `or`-probe of the count aliases. -/
theorem C7_counterexample :
    _normalize_entries (List.map encodeEntry [⟨"2024-01-01", 0⟩]) = [] ∧
      ([] : List NormEntry) ≠ [⟨"2024-01-01", 0⟩] := by
  exact ⟨by decide, by decide⟩

/-- Claim C7 (amended): normalization is idempotent on already-normalized
lists all of whose counts are non-zero — for a sorted list of entries
with canonical ISO dates and counts ≠ 0, re-normalizing returns the list
unchanged. -/
theorem C7_amended_idempotent_on_nonzero (l : List NormEntry)
    (hentries : ∀ e ∈ l, canonicalDate e.date ∧ e.downloads ≠ 0)
    (hsorted : List.Pairwise normLe l) :
    _normalize_entries (l.map encodeEntry) = l := by
  unfold _normalize_entries
  rw [List.filterMap_map,
    filterMap_id_of_mem (normalizeOne ∘ encodeEntry) l
      (fun e he => normalizeOne_encode (hentries e he).1 (hentries e he).2)]
  exact List.Sorted.insertionSort_eq hsorted

/-- Witness for `C7_amended_idempotent_on_nonzero` on a two-entry list
with a negative (hence truthy) count. -/
theorem C7_witness :
    _normalize_entries (List.map encodeEntry
        [⟨"2024-01-01", 5⟩, ⟨"2024-01-02", -3⟩]) =
      [⟨"2024-01-01", 5⟩, ⟨"2024-01-02", -3⟩] :=
  C7_amended_idempotent_on_nonzero [⟨"2024-01-01", 5⟩, ⟨"2024-01-02", -3⟩]
    (by decide) (by decide)

/-- Claim C8: the normalizer recognizes the date aliases
`date`/`day`/`key` and the count aliases
`downloads`/`count`/`value`/`downloads_count` in that priority order,
coerces string counts to integers and dates to ISO form, discards
entries with unparseable dates or counts, and sorts ascending by date;
in particular `[{"date": "2024-01-01", "downloads": "10"}]` with
`window_days = 1` normalizes (and caps) to the single integer-count
entry. -/
theorem C8_normalizer_aliases_coercion :
    (_normalize_entries [.jdict [("date", .jstr "2024-01-01"), ("downloads", .jstr "10")]] =
        [⟨"2024-01-01", 10⟩]) ∧
    (capDays [⟨"2024-01-01", 10⟩] 1 = [⟨"2024-01-01", 10⟩]) ∧
    (_normalize_entries [.jdict [("day", .jstr "2024-01-02"), ("count", .jint 7)]] =
        [⟨"2024-01-02", 7⟩]) ∧
    (_normalize_entries [.jdict [("key", .jstr "2024-01-03"), ("value", .jint 9)]] =
        [⟨"2024-01-03", 9⟩]) ∧
    (_normalize_entries [.jdict [("date", .jstr "2024-01-04"), ("downloads_count", .jint 11)]] =
        [⟨"2024-01-04", 11⟩]) ∧
    (_normalize_entries [.jdict [("date", .jstr "2024-01-05"), ("day", .jstr "2024-01-06"),
        ("downloads", .jint 1), ("count", .jint 2)]] = [⟨"2024-01-05", 1⟩]) ∧
    (_normalize_entries [.jdict [("date", .jstr "garbage"), ("downloads", .jint 1)]] = []) ∧
    (_normalize_entries [.jdict [("date", .jstr "2024-01-07"), ("downloads", .jstr "1x0")]] =
        []) ∧
    (_normalize_entries [.jdict [("date", .jstr "2024-01-09"), ("downloads", .jint 3)],
        .jdict [("date", .jstr "2024-01-08"), ("downloads", .jint 4)]] =
        [⟨"2024-01-08", 4⟩, ⟨"2024-01-09", 3⟩]) ∧
    (∀ entries, List.Pairwise normLe (_normalize_entries entries)) :=
  ⟨by decide, by decide, by decide, by decide, by decide, by decide, by decide, by decide,
   by decide, normalize_pairwise⟩

/-- Claim C9: the pepy candidate is key-gated.  With no explicit config
token the key is resolved through exactly the environment chain
`PEPY_API_KEY` / `PEPY_KEY` / `PEPY_TOKEN`; a truthy config token wins
over the environment; with a falsy key the pepy stage yields `none`
identically for every network behaviour (silently skipped, not an
error), and the whole resolver is insensitive to the pepy collaborator;
with a key, the candidate list tries the date-bounded endpoint first
when a start date exists, then the two project-summary endpoints. -/
theorem C9_pepy_key_gating :
    (∀ getenv : String → Option String,
        pepyResolveKey none getenv =
          pyOrStr (getenv "PEPY_API_KEY") (pyOrStr (getenv "PEPY_KEY") (getenv "PEPY_TOKEN"))) ∧
    (∀ (cfg : Option String) (getenv : String → Option String),
        strFalsy cfg = false → pepyResolveKey cfg getenv = cfg) ∧
    (∀ (key : Option String) (fetch : String → FetchResult) (pkg : String)
        (sd : Option String) (today : PyDate) (days : Nat),
        strFalsy key = true → pepyAttempt key fetch pkg sd today days = none) ∧
    (∀ (env : PyPIEnv) (pkg : String) (days : Nat) (f2 : String → FetchResult),
        strFalsy (pepyResolveKey env.configKey env.getenv) = true →
        _fetch_pypi_downloads env pkg days =
          _fetch_pypi_downloads
            ⟨env.metaFetch, env.statsFetch, env.configKey, env.getenv, f2, env.bq, env.today⟩
            pkg days) ∧
    (∀ (pkg s : String) (today : PyDate),
        pepyCandidates pkg (some s) today =
          ["https://pepy.tech/api/v2/projects/" ++ pkg ++ "/downloads?from=" ++ s ++
             "&to=" ++ today.isoformat,
           "https://pepy.tech/api/v2/projects/" ++ pkg,
           "https://api.pepy.tech/api/v2/projects/" ++ pkg]) ∧
    (∀ (pkg : String) (today : PyDate),
        pepyCandidates pkg none today =
          ["https://pepy.tech/api/v2/projects/" ++ pkg,
           "https://api.pepy.tech/api/v2/projects/" ++ pkg]) := by
  refine ⟨fun _ => rfl, ?_, ?_, ?_, fun _ _ _ => rfl, fun _ _ => rfl⟩
  · intro cfg getenv hc
    unfold pepyResolveKey
    rw [hc]
    rfl
  · intro key fetch pkg sd today days hk
    unfold pepyAttempt
    rw [if_pos hk]
  · intro env pkg days f2 hk
    obtain ⟨mf, sf, ck, ge, pf, bq, td⟩ := env
    dsimp only at hk ⊢
    unfold _fetch_pypi_downloads
    dsimp only
    unfold pepyAttempt
    simp only [if_pos hk]

/-- Witness for `C9_pepy_key_gating`: a configured key wins, and without
any key the pepy stage is skipped. -/
theorem C9_witness :
    pepyResolveKey (some "k") envNone = some "k" ∧
      pepyAttempt none (fun _ => FetchResult.err) "cereon-sdk" none ⟨2024, 2, 1⟩ 30 = none :=
  ⟨C9_pepy_key_gating.2.1 (some "k") envNone (by decide),
   C9_pepy_key_gating.2.2.1 none (fun _ => FetchResult.err) "cereon-sdk" none ⟨2024, 2, 1⟩ 30
     (by decide)⟩

/-- Claim C10, counterexample: the normalizer does not discard every
entry whose count value is falsy — integer `0` stored under the final
alias `downloads_count` survives the `or`-chain (the chain returns the
last alias's value, and the guard only tests `is not None`), so the
entry is kept as a zero-count point. -/
theorem C10_counterexample :
    _normalize_entries [.jdict [("date", .jstr "2024-01-01"), ("downloads_count", .jint 0)]] =
        [⟨"2024-01-01", 0⟩] ∧
      ([⟨"2024-01-01", 0⟩] : List NormEntry) ≠ [] ∧
      JVal.truthy (.jint 0) = false := by
  exact ⟨by decide, by decide, by decide⟩

/-- Claim C10 (amended): an entry whose probed count value is falsy is
discarded whenever the falsy value sits under an alias before
`downloads_count` (the chain then falls through to `None` and the
`is not None` guard fails) — in particular integer `0` under `downloads`
is dropped while the string `"0"` is kept and coerced to integer `0` —
but a falsy non-`None` value under the final alias `downloads_count`
itself (e.g. integer `0`) is kept. -/
theorem pyOr_falsy (a b : JVal) (h : a.truthy = false) : pyOr a b = b := by
  unfold pyOr
  rw [h]
  rfl

theorem pyOr_truthy (a b : JVal) (h : a.truthy = true) : pyOr a b = a := by
  unfold pyOr
  rw [h]
  rfl

theorem C10_amended_zero_count_dropped (s : String) (d : PyDate)
    (hparse : fromisoformatDate s = some d) (hiso : d.isoformat = s) :
    (∀ v : JVal, v.truthy = false →
        _normalize_entries [.jdict [("date", .jstr s), ("downloads", v)]] = []) ∧
    (_normalize_entries [.jdict [("date", .jstr s), ("downloads", .jint 0)]] = []) ∧
    (_normalize_entries [.jdict [("date", .jstr s), ("downloads", .jstr "0")]] = [⟨s, 0⟩]) ∧
    (_normalize_entries [.jdict [("date", .jstr s), ("downloads_count", .jint 0)]] =
        [⟨s, 0⟩]) := by
  have hne : s ≠ "" := by
    intro h0
    rw [h0] at hparse
    exact Option.noConfusion hparse
  have hst : (JVal.jstr s).truthy = true := by simp [JVal.truthy, hne]
  refine ⟨?_, ?_, ?_, ?_⟩
  · intro v hv
    have h1 : normalizeOne (.jdict [("date", .jstr s), ("downloads", v)]) = none := by
      unfold normalizeOne
      dsimp only
      rw [show pyGet [("date", JVal.jstr s), ("downloads", v)] "downloads" = v from rfl,
        show pyGet [("date", JVal.jstr s), ("downloads", v)] "count" = JVal.jnull from rfl,
        show pyGet [("date", JVal.jstr s), ("downloads", v)] "value" = JVal.jnull from rfl,
        show pyGet [("date", JVal.jstr s), ("downloads", v)] "downloads_count" = JVal.jnull
          from rfl,
        show pyOr JVal.jnull (pyOr JVal.jnull JVal.jnull) = JVal.jnull from rfl,
        pyOr_falsy v JVal.jnull hv]
      simp [JVal.isNull]
    simp [_normalize_entries, List.filterMap_cons, h1]
  · have h1 : normalizeOne (.jdict [("date", .jstr s), ("downloads", .jint 0)]) = none := by
      unfold normalizeOne
      dsimp only
      rw [show pyGet [("date", JVal.jstr s), ("downloads", JVal.jint 0)] "downloads" =
          JVal.jint 0 from rfl,
        show pyGet [("date", JVal.jstr s), ("downloads", JVal.jint 0)] "count" = JVal.jnull
          from rfl,
        show pyGet [("date", JVal.jstr s), ("downloads", JVal.jint 0)] "value" = JVal.jnull
          from rfl,
        show pyGet [("date", JVal.jstr s), ("downloads", JVal.jint 0)] "downloads_count" =
          JVal.jnull from rfl,
        show pyOr JVal.jnull (pyOr JVal.jnull JVal.jnull) = JVal.jnull from rfl,
        pyOr_falsy (JVal.jint 0) JVal.jnull (by decide)]
      simp [JVal.isNull]
    simp [_normalize_entries, List.filterMap_cons, h1]
  · have h1 : normalizeOne (.jdict [("date", .jstr s), ("downloads", .jstr "0")]) =
        some ⟨s, 0⟩ := by
      unfold normalizeOne
      dsimp only
      rw [show pyGet [("date", JVal.jstr s), ("downloads", JVal.jstr "0")] "date" =
          JVal.jstr s from rfl,
        show pyGet [("date", JVal.jstr s), ("downloads", JVal.jstr "0")] "downloads" =
          JVal.jstr "0" from rfl,
        pyOr_truthy (JVal.jstr s) _ hst,
        pyOr_truthy (JVal.jstr "0") _ (by decide)]
      rw [hst]
      simp only [JVal.isNull, Bool.and_true, Bool.not_false, if_pos rfl]
      rw [show (JVal.jstr s).pyStr = s from rfl, hparse]
      rw [show pyInt (JVal.jstr "0") = some 0 from by decide]
      simp [hiso]
    simp [_normalize_entries, List.filterMap_cons, h1]
  · have h1 : normalizeOne (.jdict [("date", .jstr s), ("downloads_count", .jint 0)]) =
        some ⟨s, 0⟩ := by
      unfold normalizeOne
      dsimp only
      rw [show pyGet [("date", JVal.jstr s), ("downloads_count", JVal.jint 0)] "date" =
          JVal.jstr s from rfl,
        show pyGet [("date", JVal.jstr s), ("downloads_count", JVal.jint 0)] "downloads" =
          JVal.jnull from rfl,
        show pyGet [("date", JVal.jstr s), ("downloads_count", JVal.jint 0)] "count" =
          JVal.jnull from rfl,
        show pyGet [("date", JVal.jstr s), ("downloads_count", JVal.jint 0)] "value" =
          JVal.jnull from rfl,
        show pyGet [("date", JVal.jstr s), ("downloads_count", JVal.jint 0)] "downloads_count" =
          JVal.jint 0 from rfl,
        pyOr_truthy (JVal.jstr s) _ hst,
        show pyOr JVal.jnull (pyOr JVal.jnull (pyOr JVal.jnull (JVal.jint 0))) = JVal.jint 0
          from rfl]
      rw [hst]
      simp only [JVal.isNull, Bool.and_true, Bool.not_false, if_pos rfl]
      rw [show (JVal.jstr s).pyStr = s from rfl, hparse]
      rw [show pyInt (JVal.jint 0) = some 0 from rfl]
      simp [hiso]
    simp [_normalize_entries, List.filterMap_cons, h1]

/-- Witness for `C10_amended_zero_count_dropped` at a concrete date. -/
theorem C10_witness :
    _normalize_entries [.jdict [("date", .jstr "2024-01-01"), ("downloads", .jint 0)]] = [] ∧
      _normalize_entries [.jdict [("date", .jstr "2024-01-01"), ("downloads_count", .jint 0)]] =
        [⟨"2024-01-01", 0⟩] :=
  ⟨(C10_amended_zero_count_dropped "2024-01-01" ⟨2024, 1, 1⟩ (by decide) (by decide)).2.1,
   (C10_amended_zero_count_dropped "2024-01-01" ⟨2024, 1, 1⟩ (by decide) (by decide)).2.2.2⟩
